import Mathlib

/-!
Verification of git-annex-remote-synology against its specification.

The development shallowly embeds the three units of the repository:
  * `nas.py` (class NAS): the remote tree adapter over the FileStation API,
  * `credentials.py` (class Credentials): the credential resolver,
  * `synology_remote.py` (class SynologyRemote): the special-remote state machine.

Vendor API calls (`FileStation.get_file_list`, `get_list_share`,
`create_folder`, ...) are modelled as fields of a `World` record; each call
either raises an exception (`ApiResult.raised`), returns a dict whose
`success` flag is false (`ApiResult.unsuccessful`), or succeeds with data
(`ApiResult.okv`).  Python exceptions are modelled with `Except String`.
Recursion depth is modelled with an explicit fuel parameter standing for the
Python call stack: running out of fuel corresponds to Python's
`RecursionError`.
-/

/-- Outcome of one vendor API call: raised exception, returned with
`success = false`, or returned successfully with its payload. -/
inductive ApiResult (α : Type) where
  | raised (msg : String)
  | unsuccessful
  | okv (val : α)
deriving DecidableEq

/-- One entry of a FileStation directory listing (`result.data.files`
element): its `path`, `name` and `isdir` fields. -/
structure FsEntry where
  path : String
  name : String
  isdir : Bool
deriving DecidableEq

/-- The remote NAS as seen through the FileStation API surface used by
`nas.py`: `get_file_list`, `get_list_share` (share paths only) and
`create_folder(parent, name)`. -/
structure World where
  fileList : String → ApiResult (List FsEntry)
  listShare : ApiResult (List String)
  createDir : String → String → ApiResult Unit

/-- Helper for `pySplitSlash`: splits a character list at every `'/'`,
accumulating the current segment in reverse. -/
def pySplitSlashAux : List Char → List Char → List (List Char)
  | [], acc => [acc.reverse]
  | c :: cs, acc =>
    if c = '/' then acc.reverse :: pySplitSlashAux cs []
    else pySplitSlashAux cs (c :: acc)

/-- Python `path.split("/")`: the list of `'/'`-separated segments
(`"".split("/") = [""]`, `"/a".split("/") = ["", "a"]`). -/
def pySplitSlash (s : String) : List String :=
  (pySplitSlashAux s.data []).map String.mk

/-- Python `"/".join(xs)`. -/
def pyJoinSlash : List String → String
  | [] => ""
  | [x] => x
  | x :: xs => x ++ "/" ++ pyJoinSlash xs

/-- Python `"/".join(path.split("/")[:-1])` as computed in `NAS.exists` and
`NAS.create_folder`. -/
def pyParentJoin (path : String) : String :=
  pyJoinSlash ((pySplitSlash path).dropLast)

/-- Python `path.split("/")[-1]` as computed in `NAS.create_folder`. -/
def pyLastSeg (path : String) : String :=
  (pySplitSlash path).getLastD ""

mutual

/-- `NAS.exists` (nas.py lines 112-132).  Root (`"/"` or `""`) is true
unconditionally; otherwise the parent is listed via `list_structure` and
membership is tested by exact path equality (`any(f for f in structure if
f == path)`).  The whole lookup sits in a `try` whose handler returns
`False`, so the function is total into `Bool` and never raises; an
exception from the listing (including a `RecursionError` at exhausted
stack) yields `false`. -/
def nasExists (fuel : Nat) (w : World) (path : String) : Bool :=
  if path = "/" || path = "" then true
  else
    match fuel with
    | 0 => false
    | f + 1 =>
      let parent := pyParentJoin path
      match nasListStructure f w parent false with
      | Except.error _ => false
      | Except.ok structure1 =>
        if structure1 = [] then false else structure1.contains path
termination_by structural fuel

/-- `NAS.list_structure` (nas.py lines 25-70).  Returns `[]` when the path
does not exist.  A root call queries `get_list_share`; on success, when
`recursive` is requested the loop `for directory in dirs` refers to the
local variable `dirs` which is never assigned in that branch, so Python
raises `NameError` there.  A non-root call queries `get_file_list`; on
success the entry paths are returned and, when `recursive`, each directory
child is expanded depth-first with its contents appended in listing order.
A raised or unsuccessful listing yields `Except.error` / `[]`
respectively. -/
def nasListStructure (fuel : Nat) (w : World) (path : String) (recursive : Bool) :
    Except String (List String) :=
  match fuel with
  | 0 => Except.error "RecursionError"
  | f + 1 =>
    if nasExists f w path = false then Except.ok []
    else if path = "/" || path = "" then
      match w.listShare with
      | ApiResult.raised e => Except.error e
      | ApiResult.unsuccessful => Except.ok []
      | ApiResult.okv shares =>
        if recursive then Except.error "NameError: name dirs is not defined"
        else Except.ok shares
    else
      match w.fileList path with
      | ApiResult.raised e => Except.error e
      | ApiResult.unsuccessful => Except.ok []
      | ApiResult.okv entries =>
        let structure1 := entries.map (fun e => e.path)
        if recursive then
          let dirs := (entries.filter (fun e => e.isdir)).map (fun e => e.path)
          nasExpandDirs f w dirs structure1
        else Except.ok structure1
termination_by structural fuel

/-- The `for directory in dirs: structure.extend(self.list_structure(...))`
loop of `NAS.list_structure` in the non-root recursive branch: each child
directory is listed recursively and its result appended; an exception from
a recursive call propagates. -/
def nasExpandDirs (fuel : Nat) (w : World) (ds0 : List String) (acc : List String) :
    Except String (List String) :=
  match fuel with
  | 0 =>
    match ds0 with
    | [] => Except.ok acc
    | _ :: _ => Except.error "RecursionError"
  | f + 1 =>
    match ds0 with
    | [] => Except.ok acc
    | d :: ds =>
      match nasListStructure f w d true with
      | Except.error e => Except.error e
      | Except.ok sub => nasExpandDirs f w ds (acc ++ sub)
termination_by structural fuel

end

/-- `NAS.create_folder` (nas.py lines 134-152).  Returns `true` immediately
when the path exists (no creation call); otherwise recursively ensures the
parent exists, short-circuiting with `false` when the parent chain fails,
then issues `FileStation.create_folder(parent, folder)` for the leaf.  The
second component of the result is the trace of `create_folder` API calls
issued, in order. -/
def nasCreateFolder (fuel : Nat) (w : World) (path : String) :
    Except String (Bool × List (String × String)) :=
  match fuel with
  | 0 => Except.error "RecursionError"
  | f + 1 =>
    if nasExists f w path then Except.ok (true, [])
    else
      let parent := pyParentJoin path
      let folder := pyLastSeg path
      match nasCreateFolder f w parent with
      | Except.error e => Except.error e
      | Except.ok (false, tr) => Except.ok (false, tr)
      | Except.ok (true, tr) =>
        match w.createDir parent folder with
        | ApiResult.raised e => Except.error e
        | ApiResult.unsuccessful => Except.ok (false, tr ++ [(parent, folder)])
        | ApiResult.okv _ => Except.ok (true, tr ++ [(parent, folder)])
termination_by structural fuel

/-- True when the listing that `NAS.exists` would use for `parent` raises
or reports an unsuccessful result: `get_list_share` for the root parent,
`get_file_list` otherwise. -/
def listingFails (w : World) (parent : String) : Bool :=
  if parent = "/" || parent = "" then
    match w.listShare with
    | ApiResult.okv _ => false
    | _ => true
  else
    match w.fileList parent with
    | ApiResult.okv _ => false
    | _ => true

/-! ## Remote backend state machine (`synology_remote.py`) -/

/-- Python `pathlib.Path(p).name`: the final path component (empty for a
root or empty path, trailing slashes ignored). -/
def pyPathName (p : String) : String :=
  ((pySplitSlash p).filter (fun s => s ≠ "")).getLastD ""

/-- Whether a path string begins with `'/'` (an absolute POSIX path). -/
def startsWithSlash (p : String) : Bool :=
  match p.data with
  | [] => false
  | c :: _ => c = '/'

/-- Python `pathlib.Path(p).parent.as_posix()`: the path without its final
component (`"/tmp/obj" ↦ "/tmp"`, `"obj" ↦ "."`, `"/obj" ↦ "/"`). -/
def pyPathParentPosix (p : String) : String :=
  let comps := (pySplitSlash p).filter (fun s => s ≠ "")
  let isAbs := startsWithSlash p
  match comps.dropLast with
  | [] => if isAbs then "/" else "."
  | ps => (if isAbs then "/" else "") ++ pyJoinSlash ps

/-- A filesystem-affecting step issued by a lifecycle operation. -/
inductive FxEffect where
  | download (remotePath : String) (destDir : String)
  | rename (src : String) (dst : String)
  | upload (remoteFolder : String) (localFile : String)
deriving DecidableEq

/-- `SynologyRemote.transfer_retrieve` (synology_remote.py lines 211-220),
after authentication: it computes `target_parent = path/key` and issues the
single call `NAS.download_file(target_parent/Path(local_file).name,
Path(local_file).parent.as_posix())`, which delegates directly to
`FileStation.get_file(..., dest_path=target_dir)` (nas.py lines 87-92).
The result is the ordered trace of filesystem effects the operation
performs. -/
def transferRetrieveEffects (path key localFile : String) : List FxEffect :=
  let localName := pyPathName localFile
  let localParent := pyPathParentPosix localFile
  let targetParent := path ++ "/" ++ key
  [FxEffect.download (targetParent ++ "/" ++ localName) localParent]

/-- `SynologyRemote.checkpresent` (synology_remote.py lines 222-225), after
authentication: it returns `NAS.exists(path/key)`.  The result type records
whether the operation raises (`Except.error`) or returns a presence bool;
since `NAS.exists` is total into `Bool`, the body never raises. -/
def checkpresentF (fuel : Nat) (w : World) (path key : String) : Except String Bool :=
  Except.ok (nasExists fuel w (path ++ "/" ++ key))

/-- Python `bool(s)` on a string: true exactly when the string is
non-empty. -/
def pyBoolOfString (s : String) : Bool := s ≠ ""

/-- `SynologyRemote._get_or_default` (synology_remote.py lines 59-67):
returns `type_cast(config_value)` when the config string is truthy
(non-empty), else the default.  `annex.getconfig` yields `""` for a
missing setting. -/
def getOrDefault {α : Type} (configValue : String) (defaultValue : α)
    (typeCast : String → α) : α :=
  if configValue ≠ "" then typeCast configValue else defaultValue

/-- `SynologyRemote.DEFAULT_INGORE_SSL` (synology_remote.py line 21). -/
def DEFAULT_INGORE_SSL : Bool := false

/-- The `SynologyRemote.ignore_ssl` property (synology_remote.py lines
114-126): `_get_or_default("ignore_ssl", DEFAULT_INGORE_SSL, bool)`, i.e.
Python's `bool` applied to the raw config string when it is non-empty. -/
def ignoreSslResolved (configValue : String) : Bool :=
  getOrDefault configValue DEFAULT_INGORE_SSL pyBoolOfString

/-- The credential/session phase of `SynologyRemote._authenticate` as seen
from inside the `with Credentials(...)` block (synology_remote.py lines
158-184): evaluation of `creds.username` / `creds.password` (each may raise
`RemoteError`), the explicit `raise RemoteError` on a falsy value, then
`FileStation(...)` construction (which may raise on failed login). -/
structure AuthWorld where
  usernameRes : Except String String
  passwordRes : Except String String
  totpRes : Except String (Option String)
  mkFileStation : String → String → Option String → Except String Unit

/-- The body of the `with Credentials(...) as creds:` block of
`SynologyRemote._authenticate` (synology_remote.py lines 161-186). -/
def authBody (w : AuthWorld) : Except String Unit :=
  match w.usernameRes with
  | Except.error e => Except.error e
  | Except.ok u =>
    if u = "" then Except.error "Username or password was not retrieved."
    else
      match w.passwordRes with
      | Except.error e => Except.error e
      | Except.ok p =>
        if p = "" then Except.error "Username or password was not retrieved."
        else
          match w.totpRes with
          | Except.error e => Except.error e
          | Except.ok t => w.mkFileStation u p t

/-- Python `with` semantics for a context manager whose `__exit__` returns
`True`: `Credentials.__exit__` (credentials.py lines 167-171) closes the
cursor and connection and then returns `True`, so an exception raised in
the block is suppressed and execution resumes after the `with`
statement. -/
def withCredentials {α : Type} (body : Except String α) : Except String (Option α) :=
  match body with
  | Except.ok a => Except.ok (some a)
  | Except.error _ => Except.ok none

/-- Outcome of `SynologyRemote._authenticate` when no session exists yet:
either `_filestation` was constructed, or the block's exception was
suppressed and `_filestation` is still `None` (after which line 191 still
runs `self._nas = NAS(None, annex)`). -/
inductive AuthOutcome where
  | sessionReady
  | filestationNone
deriving DecidableEq

/-- `SynologyRemote._authenticate` (synology_remote.py lines 154-191) for a
fresh backend (`self._filestation is None`).  The `try ... except Exception
as ex: raise ex` around the `with` re-raises errors unchanged, but an
exception raised inside the `with` body never reaches it: it is already
suppressed at the `with` boundary by `Credentials.__exit__` returning
`True`. -/
def authenticateF (w : AuthWorld) : Except String AuthOutcome :=
  match withCredentials (authBody w) with
  | Except.error e => Except.error e
  | Except.ok (some _) => Except.ok AuthOutcome.sessionReady
  | Except.ok none => Except.ok AuthOutcome.filestationNone

/-! ## Credential resolver (`credentials.py`)

Environment variables and database cells are modelled as `String`s with
`""` standing for Python's `None`/unset (both are falsy under `if value:`).
The fuel parameter models the Python call stack: each nested
property/method call consumes one unit, and exhaustion is Python's
`RecursionError`. -/

/-- The ambient environment of a `Credentials` instance: the
`NAS_USERNAME` / `NAS_TOTP_COMMAND` environment variables, what `input()`
would return if prompted, and the `headless` flag. -/
structure CredEnv where
  userEnv : String
  totpEnv : String
  promptedUsername : String
  headless : Bool
deriving DecidableEq

/-- Mutable state of a `Credentials` instance and its database: the
in-process caches `_username` and `_totp_command`, the `Users` row for this
hostname (`dbRowExists` with its `username` and `totp_command` columns),
and the ordered trace of upserts executed by `_save_username`. -/
structure CredState where
  cachedUsername : String
  cachedTotp : String
  dbUsername : String
  dbTotp : String
  dbRowExists : Bool
  upserts : List (String × String)
deriving DecidableEq

/-- `Credentials._save_username` (credentials.py lines 249-258): upsert of
`(hostname, username, totp_command or "")` into `Users`, overwriting
`username` and `totp_command` on conflict, followed by a commit. -/
def saveUsernameF (s : CredState) (u tc : String) : CredState :=
  { s with
    dbRowExists := true
    dbUsername := u
    dbTotp := tc
    upserts := s.upserts ++ [(u, tc)] }

/-- `Credentials._prompt_username` (credentials.py lines 240-244): raises
`RemoteError` in headless mode, otherwise reads a line interactively. -/
def promptUsernameF (env : CredEnv) : Except String String :=
  if env.headless then Except.error "User name has not been stored.  Please rerun setup."
  else Except.ok env.promptedUsername

mutual

/-- The `Credentials.username` property getter (credentials.py lines
49-71): obtain `_get_username()`; when falsy, prompt and assign through the
`username` setter; finally return the value or raise
`RemoteError("Username cannot be null.")`. -/
def usernamePropF (fuel : Nat) (env : CredEnv) (s : CredState) :
    Except String (String × CredState) :=
  match fuel with
  | 0 => Except.error "RecursionError"
  | f + 1 =>
    match getUsernameF f env s with
    | Except.error e => Except.error e
    | Except.ok (u, s1) =>
      if u = "" then
        match promptUsernameF env with
        | Except.error e => Except.error e
        | Except.ok u2 =>
          match usernameSetterF f env s1 u2 with
          | Except.error e => Except.error e
          | Except.ok s2 =>
            if u2 = "" then Except.error "Username cannot be null."
            else Except.ok (u2, s2)
      else Except.ok (u, s1)
termination_by structural fuel

/-- `Credentials._get_username` (credentials.py lines 196-209): the
environment variable wins when set (and is written back through the
`username` setter before being returned); otherwise the in-process cache;
otherwise the database row for this hostname (`None` when absent). -/
def getUsernameF (fuel : Nat) (env : CredEnv) (s : CredState) :
    Except String (String × CredState) :=
  match fuel with
  | 0 => Except.error "RecursionError"
  | f + 1 =>
    if env.userEnv ≠ "" then
      match usernameSetterF f env s env.userEnv with
      | Except.error e => Except.error e
      | Except.ok s1 => Except.ok (env.userEnv, s1)
    else if s.cachedUsername ≠ "" then Except.ok (s.cachedUsername, s)
    else Except.ok ((if s.dbRowExists then s.dbUsername else ""), s)
termination_by structural fuel

/-- The `Credentials.username` setter (credentials.py lines 73-77):
`self._save_username(username, self.totp_command)` — note that it first
evaluates the `totp_command` property — then caches the value in
`self._username`. -/
def usernameSetterF (fuel : Nat) (env : CredEnv) (s : CredState) (u : String) :
    Except String CredState :=
  match fuel with
  | 0 => Except.error "RecursionError"
  | f + 1 =>
    match totpCommandPropF f env s with
    | Except.error e => Except.error e
    | Except.ok (tc, s1) =>
      Except.ok { saveUsernameF s1 u tc with cachedUsername := u }
termination_by structural fuel

/-- The `Credentials.totp_command` property getter (credentials.py lines
120-130): delegates to `_get_totp_command()`. -/
def totpCommandPropF (fuel : Nat) (env : CredEnv) (s : CredState) :
    Except String (String × CredState) :=
  match fuel with
  | 0 => Except.error "RecursionError"
  | f + 1 => getTotpCommandF f env s
termination_by structural fuel

/-- `Credentials._get_totp_command` (credentials.py lines 211-224): the
environment variable wins when set (and is written back through the
`totp_command` setter); otherwise the database column (`None` when the row
is absent). -/
def getTotpCommandF (fuel : Nat) (env : CredEnv) (s : CredState) :
    Except String (String × CredState) :=
  match fuel with
  | 0 => Except.error "RecursionError"
  | f + 1 =>
    if env.totpEnv ≠ "" then
      match totpSetterF f env s env.totpEnv with
      | Except.error e => Except.error e
      | Except.ok s1 => Except.ok (env.totpEnv, s1)
    else Except.ok ((if s.dbRowExists then s.dbTotp else ""), s)
termination_by structural fuel

/-- The `Credentials.totp_command` setter (credentials.py lines 132-136):
`self._save_username(self.username, totp_command)` — note that it first
evaluates the full `username` property — then caches the value in
`self._totp_command`. -/
def totpSetterF (fuel : Nat) (env : CredEnv) (s : CredState) (tc : String) :
    Except String CredState :=
  match fuel with
  | 0 => Except.error "RecursionError"
  | f + 1 =>
    match usernamePropF f env s with
    | Except.error e => Except.error e
    | Except.ok (u, s1) =>
      Except.ok { saveUsernameF s1 u tc with cachedTotp := tc }
termination_by structural fuel

end

/-- The external process runner: for a command line, the pair of its
return code and its decoded standard output. -/
structure CmdWorld where
  runRes : String → Nat × String

/-- The `Credentials.totp` property (credentials.py lines 138-154):
`totp = None`; when `self.totp_command` is truthy, the command is run
synchronously with `check=True` — a non-zero return code therefore raises
`CalledProcessError` — and its decoded stdout becomes the code.  The
returned state is exactly the state after resolving `totp_command`: the
code itself is never cached or persisted. -/
def totpPropF (fuel : Nat) (env : CredEnv) (s : CredState) (cw : CmdWorld) :
    Except String (Option String × CredState) :=
  match totpCommandPropF fuel env s with
  | Except.error e => Except.error e
  | Except.ok (tc, s1) =>
    if tc ≠ "" then
      let r := cw.runRes tc
      if r.1 ≠ 0 then Except.error "CalledProcessError"
      else Except.ok (some r.2, s1)
    else Except.ok (none, s1)

/-! ## Retry/backoff around the local database (`credentials.py`) -/

/-- Outcome of running a `backoff.on_exception`-decorated call under a
given attempt budget: the call succeeded, the decorator gave up and
re-raised, or the budget ran out with the decorator still retrying. -/
inductive BackoffOutcome (α : Type) where
  | done (a : α)
  | escalated (e : String)
  | stillRetrying
deriving DecidableEq

/-- The give-up predicate of `backoff.on_exception` after `tries` failed
attempts: with the library default `max_tries=None` — which is what the
bare `@backoff.on_exception(backoff.expo, OperationalError)` decorator on
`Credentials._create_users_table` (credentials.py line 177) uses — it never
gives up. -/
def giveUp (maxTries : Option Nat) (tries : Nat) : Bool :=
  match maxTries with
  | none => false
  | some m => decide (m ≤ tries)

/-- The retry loop of `backoff.on_exception`: run attempt `i`; on success
stop; on the watched exception either re-raise when `giveUp` triggers or
sleep (exponential backoff) and retry.  `fuel` bounds how many attempts we
observe. -/
def runBackoff {α : Type} (maxTries : Option Nat) (attempt : Nat → Except String α) :
    Nat → Nat → BackoffOutcome α
  | _, 0 => BackoffOutcome.stillRetrying
  | i, f + 1 =>
    match attempt i with
    | Except.ok a => BackoffOutcome.done a
    | Except.error e =>
      if giveUp maxTries (i + 1) then BackoffOutcome.escalated e
      else runBackoff maxTries attempt (i + 1) f

/-- `Credentials._create_users_table` under its decorator
`@backoff.on_exception(backoff.expo, OperationalError)` (credentials.py
lines 177-184): the decorator is passed neither `max_tries` nor
`max_time`, so `maxTries = none`. -/
def createUsersTableRetried (dbAttempt : Nat → Except String Unit) (fuel : Nat) :
    BackoffOutcome Unit :=
  runBackoff none dbAttempt 0 fuel

/-- A database that raises `OperationalError` on every attempt (a
persistently locked local database). -/
def persistentOpErr : Nat → Except String Unit :=
  fun _ => Except.error "OperationalError"

/-! ## Concrete instances used by witnesses and counterexamples -/

/-- A small NAS world: one share `/share` whose listing is empty; creating
`x` inside `/share` is rejected, every other creation succeeds. -/
def wTest : World :=
  { fileList := fun p => if p = "/share" then ApiResult.okv [] else ApiResult.unsuccessful
    listShare := ApiResult.okv ["/share"]
    createDir := fun parent name =>
      if parent = "/share" && name = "x" then ApiResult.unsuccessful else ApiResult.okv () }

/-- A NAS world on which every API call raises (remote unreachable). -/
def wUnreachable : World :=
  { fileList := fun _ => ApiResult.raised "ConnectionError"
    listShare := ApiResult.raised "ConnectionError"
    createDir := fun _ _ => ApiResult.raised "ConnectionError" }

/-- A reachable NAS world: the share `/volume1` contains only the annex
root `/volume1/annex`, whose own listing holds one unrelated key
directory. -/
def wReachable : World :=
  { fileList := fun p =>
      if p = "/volume1" then ApiResult.okv [⟨"/volume1/annex", "annex", true⟩]
      else if p = "/volume1/annex" then ApiResult.okv [⟨"/volume1/annex/OTHERKEY", "OTHERKEY", true⟩]
      else ApiResult.unsuccessful
    listShare := ApiResult.okv ["/volume1"]
    createDir := fun _ _ => ApiResult.okv () }

/-- Environment with both `NAS_USERNAME` and `NAS_TOTP_COMMAND` set. -/
def envBoth : CredEnv := ⟨"user1", "totpcmd", "", true⟩

/-- Environment with only `NAS_USERNAME` set. -/
def envUserOnly : CredEnv := ⟨"user1", "", "", true⟩

/-- Environment with neither override set (headless). -/
def envNone : CredEnv := ⟨"", "", "", true⟩

/-- Fresh credential state over a pre-existing database row
`(olddb, oldtc)` for this hostname. -/
def sOldRow : CredState := ⟨"", "", "olddb", "oldtc", true, []⟩

/-- Fresh credential state with no database row. -/
def sNoRow : CredState := ⟨"", "", "", "", false, []⟩

/-- Credential state whose database row carries the TOTP command `badcmd`. -/
def sBadCmd : CredState := ⟨"", "", "alice", "badcmd", true, []⟩

/-- Credential state whose database row carries the TOTP command `goodcmd`. -/
def sGoodCmd : CredState := ⟨"", "", "alice", "goodcmd", true, []⟩

/-- Credential state whose database row has no TOTP command. -/
def sNoCmd : CredState := ⟨"", "", "alice", "", true, []⟩

/-- Process runner: `badcmd` exits 1, everything else exits 0 printing
`123456`. -/
def cwTest : CmdWorld :=
  ⟨fun c => if c = "badcmd" then (1, "") else (0, "123456")⟩

/-- Auth world for a headless run with no stored credentials: evaluating
`creds.username` raises the `RemoteError` of `_prompt_username`. -/
def awNoCreds : AuthWorld :=
  { usernameRes := Except.error "User name has not been stored.  Please rerun setup."
    passwordRes := Except.ok "pw"
    totpRes := Except.ok none
    mkFileStation := fun _ _ _ => Except.ok () }

/-- Auth world where credentials resolve but `FileStation(...)` raises
(vendor rejected the login). -/
def awLoginFail : AuthWorld :=
  { usernameRes := Except.ok "user1"
    passwordRes := Except.ok "pw"
    totpRes := Except.ok none
    mkFileStation := fun _ _ _ => Except.error "SynoConnError" }

/-! ## Helper lemmas -/

/-- When the listing that `NAS.exists` consults for a parent raises or is
unsuccessful, `list_structure` of that parent yields `[]` or propagates the
exception, for every recursion depth. -/
theorem listStructure_fails_shape (w : World) (q : String)
    (hfail : listingFails w q = true) (g : Nat) :
    nasListStructure g w q false = Except.ok []
      ∨ ∃ e, nasListStructure g w q false = Except.error e := by
  match g with
  | 0 => exact Or.inr ⟨"RecursionError", rfl⟩
  | Nat.succ g' =>
    unfold listingFails at hfail
    unfold nasListStructure
    by_cases hex : nasExists g' w q = false
    · simp [hex]
    · rw [if_neg hex]
      by_cases hroot : (q = "/" || q = "") = true
      · rw [if_pos hroot] at hfail ⊢
        cases hsh : w.listShare with
        | raised e => exact Or.inr ⟨e, rfl⟩
        | unsuccessful => exact Or.inl rfl
        | okv v => rw [hsh] at hfail; simp at hfail
      · rw [if_neg hroot] at hfail ⊢
        cases hsh : w.fileList q with
        | raised e => exact Or.inr ⟨e, rfl⟩
        | unsuccessful => exact Or.inl rfl
        | okv v => rw [hsh] at hfail; simp at hfail

/-- A non-root path whose parent listing fails or is unsuccessful does not
exist according to `NAS.exists`. -/
theorem exists_false_of_listingFails (w : World) (p : String) (f : Nat)
    (hnr : (p = "/" || p = "") = false)
    (hfail : listingFails w (pyParentJoin p) = true) :
    nasExists (f + 1) w p = false := by
  unfold nasExists
  rcases listStructure_fails_shape w (pyParentJoin p) hfail f with h | ⟨e, h⟩ <;>
    simp [hnr, h]

/-- A non-root path absent from its parent's listing does not exist
according to `NAS.exists`: membership is exact path equality. -/
theorem exists_false_of_not_mem (w : World) (p : String) (f : Nat) (l : List String)
    (hnr : (p = "/" || p = "") = false)
    (hl : nasListStructure f w (pyParentJoin p) false = Except.ok l)
    (hmem : l.contains p = false) :
    nasExists (f + 1) w p = false := by
  have hmem' : p ∉ l := by simpa using hmem
  unfold nasExists
  by_cases hl0 : l = [] <;> simp [hnr, hl, hl0, hmem']

/-- With both `NAS_USERNAME` and `NAS_TOTP_COMMAND` set, every entry point
of the username/totp-command property cluster ends in `RecursionError`, at
every recursion depth and from every starting state: the `username` setter
evaluates the `totp_command` property, whose env branch invokes the
`totp_command` setter, which evaluates the `username` property again. -/
theorem envBoth_cycle (f : Nat) :
    (∀ s, usernamePropF f envBoth s = Except.error "RecursionError")
    ∧ (∀ s, getUsernameF f envBoth s = Except.error "RecursionError")
    ∧ (∀ s u, usernameSetterF f envBoth s u = Except.error "RecursionError")
    ∧ (∀ s, totpCommandPropF f envBoth s = Except.error "RecursionError")
    ∧ (∀ s, getTotpCommandF f envBoth s = Except.error "RecursionError")
    ∧ (∀ s tc, totpSetterF f envBoth s tc = Except.error "RecursionError") := by
  induction f with
  | zero =>
    exact ⟨fun _ => rfl, fun _ => rfl, fun _ _ => rfl, fun _ => rfl, fun _ => rfl,
      fun _ _ => rfl⟩
  | succ f ih =>
    obtain ⟨ihP, ihG, ihS, ihTP, ihTG, ihTS⟩ := ih
    refine ⟨?_, ?_, ?_, ?_, ?_, ?_⟩
    · intro s; unfold usernamePropF; rw [ihG s]
    · intro s
      unfold getUsernameF
      rw [if_pos (show envBoth.userEnv ≠ "" from by decide), ihS s envBoth.userEnv]
    · intro s u; unfold usernameSetterF; rw [ihTP s]
    · intro s; unfold totpCommandPropF; exact ihTG s
    · intro s
      unfold getTotpCommandF
      rw [if_pos (show envBoth.totpEnv ≠ "" from by decide), ihTS s envBoth.totpEnv]
    · intro s tc; unfold totpSetterF; rw [ihP s]

/-- Under persistent `OperationalError`, the bare
`backoff.on_exception(backoff.expo, OperationalError)` loop is still
retrying after every finite number of attempts: it never completes and
never escalates. -/
theorem runBackoff_none_persistent (f : Nat) :
    ∀ i, runBackoff none persistentOpErr i f = BackoffOutcome.stillRetrying := by
  induction f with
  | zero => intro i; rfl
  | succ f ih => intro i; simp [runBackoff, persistentOpErr, giveUp, ih]


/-! ## Claim theorems -/

/-- C1: the claim says a `RemoteError` raised inside the scoped
`Credentials` acquisition during `_authenticate` propagates to the host.
The code contradicts this: `Credentials.__exit__` returns `True`, so the
`with` statement suppresses the exception and `_authenticate` returns
normally with `_filestation` still `None` — both for the explicit
`RemoteError` of the credential cascade and for a failed `FileStation`
construction. -/
theorem authenticate_swallows_remote_error :
    authBody awNoCreds
      = Except.error "User name has not been stored.  Please rerun setup."
    ∧ authenticateF awNoCreds = Except.ok AuthOutcome.filestationNone
    ∧ authBody awLoginFail = Except.error "SynoConnError"
    ∧ authenticateF awLoginFail = Except.ok AuthOutcome.filestationNone :=
  ⟨rfl, rfl, rfl, rfl⟩

/-- C2 counterexample: contrary to the claim, `transfer_retrieve` performs
no staged download followed by a rename.  At a concrete key and local
file, its effect trace is a single direct download whose destination
directory is exactly the parent directory of the requested destination
path, and no rename/move effect occurs. -/
theorem transfer_retrieve_no_staging_counterexample :
    transferRetrieveEffects "/volume1/annex" "SHA256-s5-k" "/tmp/dir/obj"
      = [FxEffect.download "/volume1/annex/SHA256-s5-k/obj" "/tmp/dir"]
    ∧ pyPathParentPosix "/tmp/dir/obj" = "/tmp/dir"
    ∧ (∀ src dst,
        FxEffect.rename src dst
          ∉ transferRetrieveEffects "/volume1/annex" "SHA256-s5-k" "/tmp/dir/obj") := by
  refine ⟨rfl, rfl, ?_⟩
  intro src dst h
  rw [show transferRetrieveEffects "/volume1/annex" "SHA256-s5-k" "/tmp/dir/obj"
      = [FxEffect.download "/volume1/annex/SHA256-s5-k/obj" "/tmp/dir"] from rfl] at h
  simp at h

/-- C2 amended: for every root path, key and local destination,
`transfer_retrieve` issues exactly one effect — a direct download of
`path/key/basename(localFile)` whose destination directory is the parent
directory of `localFile` itself — and never issues a rename/move, so no
private staging location is involved. -/
theorem transfer_retrieve_direct_download (path key localFile : String) :
    transferRetrieveEffects path key localFile
      = [FxEffect.download (path ++ "/" ++ key ++ "/" ++ pyPathName localFile)
          (pyPathParentPosix localFile)]
    ∧ (∀ src dst, FxEffect.rename src dst ∉ transferRetrieveEffects path key localFile) := by
  refine ⟨rfl, ?_⟩
  intro src dst h
  rw [show transferRetrieveEffects path key localFile
      = [FxEffect.download (path ++ "/" ++ key ++ "/" ++ pyPathName localFile)
          (pyPathParentPosix localFile)] from rfl] at h
  simp at h

/-- C3 counterexample: contrary to the claim, `checkpresent` raises no
distinguishable error when the remote cannot be reached: on a world whose
every listing call raises it returns `Except.ok false`, exactly the value
it returns on a reachable world where the key directory is merely absent
(shown reachable by the sibling key that does exist). -/
theorem checkpresent_unreachable_counterexample :
    checkpresentF 10 wUnreachable "/volume1/annex" "KEY1" = Except.ok false
    ∧ checkpresentF 10 wReachable "/volume1/annex" "KEY1" = Except.ok false
    ∧ checkpresentF 10 wReachable "/volume1/annex" "OTHERKEY" = Except.ok true :=
  ⟨rfl, rfl, rfl⟩

/-- C3 amended: `checkpresent` returns `Except.ok false` — it never
raises — both when the listing of the key's parent fails or is
unsuccessful (remote unreachable) and when the listing succeeds without
containing the key's path (key absent); the two situations are therefore
indistinguishable to the caller. -/
theorem checkpresent_false_on_absent_and_unreachable
    (w wa : World) (f fa : Nat) (path key pa ka : String) (l : List String)
    (hnr : ((path ++ "/" ++ key) = "/" || (path ++ "/" ++ key) = "") = false)
    (hfail : listingFails w (pyParentJoin (path ++ "/" ++ key)) = true)
    (hnra : ((pa ++ "/" ++ ka) = "/" || (pa ++ "/" ++ ka) = "") = false)
    (hla : nasListStructure fa wa (pyParentJoin (pa ++ "/" ++ ka)) false = Except.ok l)
    (hmem : l.contains (pa ++ "/" ++ ka) = false) :
    checkpresentF (f + 1) w path key = Except.ok false
    ∧ checkpresentF (fa + 1) wa pa ka = Except.ok false := by
  constructor
  · unfold checkpresentF
    rw [exists_false_of_listingFails w (path ++ "/" ++ key) f hnr hfail]
  · unfold checkpresentF
    rw [exists_false_of_not_mem wa (pa ++ "/" ++ ka) fa l hnra hla hmem]

/-- C3 witness: the amended theorem applied to the unreachable world and
to the reachable world with an absent key. -/
theorem checkpresent_false_witness :
    checkpresentF 10 wUnreachable "/volume1/annex" "WKEY" = Except.ok false
    ∧ checkpresentF 10 wReachable "/volume1/annex" "WKEY" = Except.ok false :=
  checkpresent_false_on_absent_and_unreachable wUnreachable wReachable 9 9
    "/volume1/annex" "WKEY" "/volume1/annex" "WKEY" ["/volume1/annex/OTHERKEY"]
    (by decide) (by decide) (by decide) rfl (by decide)

/-- C4: `NAS.exists` is total into `Bool` by construction (its body is a
`try` whose handler returns `False`), returns `true` unconditionally for
the root path (`"/"` or `""`, at any recursion depth and on any world,
including one whose every call raises), returns `false` whenever the
listing of the parent raises or reports an unsuccessful result, and
decides membership by exact path match, so a path absent from the parent
listing — even one listing other entries — yields `false`. -/
theorem exists_root_failsoft_exactmatch
    (w w3 : World) (f f2 f3 : Nat) (p2 p3 : String) (l : List String)
    (h2nr : (p2 = "/" || p2 = "") = false)
    (h2 : listingFails w (pyParentJoin p2) = true)
    (h3nr : (p3 = "/" || p3 = "") = false)
    (h3 : nasListStructure f3 w3 (pyParentJoin p3) false = Except.ok l)
    (h3mem : l.contains p3 = false) :
    nasExists f w "/" = true ∧ nasExists f w "" = true
    ∧ nasExists (f2 + 1) w p2 = false ∧ nasExists (f3 + 1) w3 p3 = false := by
  refine ⟨?_, ?_, ?_, ?_⟩
  · unfold nasExists; simp
  · unfold nasExists; simp
  · exact exists_false_of_listingFails w p2 f2 h2nr h2
  · exact exists_false_of_not_mem w3 p3 f3 l h3nr h3 h3mem

/-- C4 witness: on the world whose every call raises, the root still
exists while a nested path does not; on the reachable world, a path not
listed in its parent does not exist. -/
theorem exists_root_failsoft_witness :
    nasExists 7 wUnreachable "/" = true ∧ nasExists 7 wUnreachable "" = true
    ∧ nasExists 10 wUnreachable "/volume1/annex" = false
    ∧ nasExists 10 wReachable "/volume1/annex/KEY1" = false :=
  exists_root_failsoft_exactmatch wUnreachable wReachable 7 9 9
    "/volume1/annex" "/volume1/annex/KEY1" ["/volume1/annex/OTHERKEY"]
    (by decide) (by decide) (by decide) rfl (by decide)

/-- C5: `NAS.create_folder` returns success immediately, issuing no
creation call, when the path already exists (hence a second call on a
path whose first call made it exist also succeeds with an empty creation
trace); when the path is missing and the recursive call on the parent
chain reports failure, it short-circuits with that failure without
attempting the leaf (the trace is exactly the parent chain's); and on a
successful parent chain it appends the leaf creation last, giving
root-to-leaf order. -/
theorem create_folder_idempotent_shortcircuit
    (w : World) (f : Nat) (p q r : String) (trq trr : List (String × String))
    (hp : nasExists f w p = true)
    (hq : nasExists f w q = false)
    (hqpar : nasCreateFolder f w (pyParentJoin q) = Except.ok (false, trq))
    (hr : nasExists f w r = false)
    (hrpar : nasCreateFolder f w (pyParentJoin r) = Except.ok (true, trr))
    (hrapi : w.createDir (pyParentJoin r) (pyLastSeg r) = ApiResult.okv ()) :
    nasCreateFolder (f + 1) w p = Except.ok (true, [])
    ∧ nasCreateFolder (f + 1) w q = Except.ok (false, trq)
    ∧ nasCreateFolder (f + 1) w r
        = Except.ok (true, trr ++ [(pyParentJoin r, pyLastSeg r)]) := by
  refine ⟨?_, ?_, ?_⟩
  · unfold nasCreateFolder; rw [if_pos hp]
  · unfold nasCreateFolder; simp [hq, hqpar]
  · unfold nasCreateFolder; simp [hr, hrpar, hrapi]

/-- C5 witness: on `wTest`, `/share` already exists and is re-affirmed
with an empty creation trace; `/share/x/y` fails because creating `x`
under `/share` is rejected, and the leaf `y` is never attempted;
`/share2/z` succeeds creating `/share2` before `z`. -/
theorem create_folder_idempotent_witness :
    nasCreateFolder 13 wTest "/share" = Except.ok (true, [])
    ∧ nasCreateFolder 13 wTest "/share/x/y" = Except.ok (false, [("/share", "x")])
    ∧ nasCreateFolder 13 wTest "/share2/z"
        = Except.ok (true, [("", "share2"), ("/share2", "z")]) :=
  create_folder_idempotent_shortcircuit wTest 12 "/share" "/share/x/y" "/share2/z"
    [("/share", "x")] [("", "share2")]
    (by decide) (by decide) rfl (by decide) rfl (by decide)

/-- C6: the claim says a recursive root-level `list_structure` call
expands each share depth-first.  The code instead raises `NameError` in
that branch: the loop `for directory in dirs` refers to a local variable
`dirs` that is never assigned when the shares branch is taken.  On a world
with a successfully listed share, the non-recursive root call returns the
share paths while the recursive call fails. -/
theorem list_structure_recursive_root_name_error :
    nasListStructure 10 wTest "/" false = Except.ok ["/share"]
    ∧ nasListStructure 10 wTest "/" true
        = Except.error "NameError: name dirs is not defined" :=
  ⟨rfl, rfl⟩

/-- C7: the claim says a set username environment variable is always
returned after being upserted.  This holds only while the TOTP-command
variable is unset: with only `NAS_USERNAME` set, resolution returns the
environment value, having first overwritten the pre-existing row
`(olddb, oldtc)` with it.  With `NAS_TOTP_COMMAND` also set, the
`username` setter evaluates the `totp_command` property, whose setter
evaluates the `username` property again, so resolution exhausts every
stack depth and aborts with `RecursionError` instead of returning the
environment value. -/
theorem username_env_override_recursion_error :
    (∀ f s, usernamePropF f envBoth s = Except.error "RecursionError")
    ∧ usernamePropF 30 envUserOnly sOldRow
        = Except.ok ("user1", ⟨"user1", "", "user1", "oldtc", true, [("user1", "oldtc")]⟩) :=
  ⟨fun f s => (envBoth_cycle f).1 s, rfl⟩

/-- C8 counterexample: contrary to the claim, a failing TOTP command does
not yield an absent code: with the command `badcmd` configured in the row
and exiting with status 1, the `totp` property propagates
`CalledProcessError` (the command is run with `check=True`) instead of
returning `None`. -/
theorem totp_command_failure_raises_counterexample :
    totpCommandPropF 10 envNone sBadCmd = Except.ok ("badcmd", sBadCmd)
    ∧ cwTest.runRes "badcmd" = (1, "")
    ∧ totpPropF 10 envNone sBadCmd cwTest = Except.error "CalledProcessError" :=
  ⟨rfl, rfl, rfl⟩

/-- C8 amended: when no TOTP command is configured the code is absent
(`none`) and no error is raised; when a command is configured and exits
non-zero, `CalledProcessError` propagates (`check=True`); when it exits
zero its decoded stdout is the code.  In every case the returned state is
exactly the state after resolving the command — the code value itself is
never cached or persisted, so it is recomputed on each access. -/
theorem totp_resolution_behavior
    (f : Nat) (env1 env2 env3 : CredEnv) (s1 s2 s3 t1 t2 t3 : CredState)
    (cw : CmdWorld) (tcB tcC : String)
    (h1 : totpCommandPropF f env1 s1 = Except.ok ("", t1))
    (h2 : totpCommandPropF f env2 s2 = Except.ok (tcB, t2))
    (h2n : tcB ≠ "")
    (h2f : (cw.runRes tcB).1 ≠ 0)
    (h3 : totpCommandPropF f env3 s3 = Except.ok (tcC, t3))
    (h3n : tcC ≠ "")
    (h3s : (cw.runRes tcC).1 = 0) :
    totpPropF f env1 s1 cw = Except.ok (none, t1)
    ∧ totpPropF f env2 s2 cw = Except.error "CalledProcessError"
    ∧ totpPropF f env3 s3 cw = Except.ok (some (cw.runRes tcC).2, t3) := by
  refine ⟨?_, ?_, ?_⟩
  · unfold totpPropF; rw [h1]; simp
  · unfold totpPropF; rw [h2]; simp [h2n, h2f]
  · unfold totpPropF; rw [h3]; simp [h3n, h3s]

/-- C8 witness: the amended theorem at the concrete runner `cwTest` and
the three database rows with no command, a failing command and a
succeeding command. -/
theorem totp_resolution_behavior_witness :
    totpPropF 10 envNone sNoCmd cwTest = Except.ok (none, sNoCmd)
    ∧ totpPropF 10 envNone sBadCmd cwTest = Except.error "CalledProcessError"
    ∧ totpPropF 10 envNone sGoodCmd cwTest = Except.ok (some "123456", sGoodCmd) :=
  totp_resolution_behavior 10 envNone envNone envNone sNoCmd sBadCmd sGoodCmd
    sNoCmd sBadCmd sGoodCmd cwTest "badcmd" "goodcmd"
    rfl rfl (by decide) (by decide) rfl (by decide) (by decide)

/-- C9 counterexample: contrary to the claim, the retry loop around
`_create_users_table` does not terminate and escalate on persistent
`OperationalError`: the decorator is configured with the library default
`max_tries=None`, so after every finite number of attempts it is still
retrying — it never reaches an escalated state. -/
theorem backoff_never_escalates_counterexample :
    createUsersTableRetried persistentOpErr 1000 = BackoffOutcome.stillRetrying
    ∧ (∀ f i, runBackoff none persistentOpErr i f = BackoffOutcome.stillRetrying) :=
  ⟨runBackoff_none_persistent 1000 0, fun f i => runBackoff_none_persistent f i⟩

/-- C9 amended: `OperationalError` during `_create_users_table` is retried
with exponential backoff but without any attempt bound: the give-up
predicate of the unparameterised decorator is constantly false, so a
persistent failure sequence is retried forever and never escalates (nor
completes). -/
theorem backoff_unbounded_retry :
    (∀ n, giveUp none n = false)
    ∧ (∀ i f e, runBackoff none persistentOpErr i f ≠ BackoffOutcome.escalated e)
    ∧ (∀ i f u, runBackoff none persistentOpErr i f ≠ BackoffOutcome.done u) := by
  refine ⟨fun n => rfl, ?_, ?_⟩
  · intro i f e h
    rw [runBackoff_none_persistent f i] at h
    exact absurd h (by simp)
  · intro i f u h
    rw [runBackoff_none_persistent f i] at h
    exact absurd h (by simp)

/-- C10: resolving the `ignore_ssl` config is Python's `bool` applied to
the raw config string, not a boolean parse: every non-empty string —
including `"false"`, `"False"` and `"0"` — resolves to `true`, and only a
missing/empty value yields the default `false`. -/
theorem ignore_ssl_truthy_cast (s : String) (h : s ≠ "") :
    ignoreSslResolved s = true ∧ ignoreSslResolved "" = false := by
  constructor
  · simp [ignoreSslResolved, getOrDefault, pyBoolOfString, h]
  · rfl

/-- C10 witness: the theorem applied to `"false"`, `"False"` and `"0"`,
plus the empty-string default. -/
theorem ignore_ssl_truthy_cast_witness :
    ignoreSslResolved "false" = true ∧ ignoreSslResolved "False" = true
    ∧ ignoreSslResolved "0" = true ∧ ignoreSslResolved "" = false :=
  ⟨(ignore_ssl_truthy_cast "false" (by decide)).1,
   (ignore_ssl_truthy_cast "False" (by decide)).1,
   (ignore_ssl_truthy_cast "0" (by decide)).1,
   (ignore_ssl_truthy_cast "x" (by decide)).2⟩
